import Mathlib

/-!
Verification of `debug_imports.py`, the single source file of the
Text-to-video-generator repository.

The script is a linear diagnostic runner: it prints a banner, then performs
four probe steps (Step A: torch import plus version and CUDA query; Step B:
diffusers import plus version; Step C: resolution of five fixed dotted symbol
paths; Step D: re-import of diffusers and a filtered, sorted listing of its
attribute names), every external operation wrapped in a catch-all handler
that prints the error text.

Shallow embedding: the outcomes of all external operations (imports,
attribute reads, the CUDA availability query, the `dir` listing) are
collected in an `Env` record; the script becomes a pure function from `Env`
to the list of printed lines, where each list element is the string passed
to one `print` call.  A Python `try` block is modelled by the body’s
`List String × Option String` value — the lines printed before any raise,
and the raised error message if one occurred — and `runTry` applies the
`except` handler exactly when an error was raised.
-/

/-- The unconditional first print of the script. -/
def banner : String := "=== DEBUGGING DIFFUSERS IMPORT ==="

/-- Python `str(bool)` as interpolated by the f-string in Step A. -/
def pyBool (b : Bool) : String := if b then "True" else "False"

/-- Outcomes of every external operation the script performs.  `Except.error e`
means the operation raises an exception whose message text is `e`. -/
structure Env where
  /-- Outcome of `import torch`. -/
  torchImport : Except String Unit
  /-- Outcome of reading `torch.__version__` (the version string on success). -/
  torchVersion : Except String String
  /-- Outcome of `torch.cuda.is_available()`. -/
  cudaAvailable : Except String Bool
  /-- Outcome of `import diffusers` (Step B and the re-import in Step D). -/
  diffusersImport : Except String Unit
  /-- Outcome of reading `diffusers.__version__`. -/
  diffusersVersion : Except String String
  /-- Outcome of `__import__(mp, fromlist=[cn])` for module path `mp` and
  attribute name `cn`. -/
  moduleImport : String → String → Except String Unit
  /-- Outcome of `getattr(module, cn)` on the module imported from `mp`. -/
  getattrOf : String → String → Except String Unit
  /-- The listing `dir(diffusers)` when the diffusers import succeeds. -/
  dirDiffusers : List String

/-- Split a character list at its last `'.'`: `some (l, r)` when a dot exists,
with `l` the part before the last dot and `r` the part after it. -/
def splitLastDot : List Char → Option (List Char × List Char)
  | [] => none
  | c :: cs =>
    match splitLastDot cs with
    | some (l, r) => some (c :: l, r)
    | none => if c = '.' then some ([], cs) else none

/-- Python `s.rsplit('.', 1)`: one split at the last dot, the whole string
if no dot occurs. -/
def rsplitDot (s : String) : List String :=
  match splitLastDot s.toList with
  | some (l, r) => [l.asString, r.asString]
  | none => [s]

/-- Python string comparison on character lists: lexicographic by code point. -/
def lexLe : List Char → List Char → Bool
  | [], _ => true
  | _ :: _, [] => false
  | a :: as, b :: bs => if a < b then true else if b < a then false else lexLe as bs

/-- Python `a <= b` on strings. -/
def strLe (a b : String) : Bool := lexLe a.toList b.toList

theorem lexLe_total : ∀ as bs : List Char, lexLe as bs = true ∨ lexLe bs as = true
  | [], _ => Or.inl rfl
  | _ :: _, [] => Or.inr rfl
  | a :: as, b :: bs => by
    rcases lt_trichotomy a b with h | h | h
    · left; simp [lexLe, h]
    · subst h
      rcases lexLe_total as bs with ih | ih
      · left; simp [lexLe, ih]
      · right; simp [lexLe, ih]
    · right; simp [lexLe, h]

theorem lexLe_trans : ∀ as bs cs : List Char,
    lexLe as bs = true → lexLe bs cs = true → lexLe as cs = true
  | [], _, _ => by intro _ _; rfl
  | _ :: _, [], _ => by intro h _; simp [lexLe] at h
  | _ :: _, _ :: _, [] => by intro _ h; simp [lexLe] at h
  | a :: as, b :: bs, c :: cs => by
    intro h1 h2
    rcases lt_trichotomy a b with hab | hab | hab
    · rcases lt_trichotomy b c with hbc | hbc | hbc
      · simp [lexLe, lt_trans hab hbc]
      · subst hbc; simp [lexLe, hab]
      · exfalso; simp [lexLe, hbc, asymm hbc] at h2
    · subst hab
      rcases lt_trichotomy a c with hbc | hbc | hbc
      · simp [lexLe, hbc]
      · subst hbc
        simp [lexLe, lt_irrefl] at h1 h2 ⊢
        exact lexLe_trans as bs cs h1 h2
      · exfalso; simp [lexLe, hbc, asymm hbc] at h2
    · exfalso; simp [lexLe, hab, asymm hab] at h1

instance strLeIsTotal : IsTotal String (fun a b => strLe a b = true) :=
  ⟨fun a b => lexLe_total a.toList b.toList⟩

instance strLeIsTrans : IsTrans String (fun a b => strLe a b = true) :=
  ⟨fun a b c => lexLe_trans a.toList b.toList c.toList⟩

/-- Python `sorted` on a list of strings (ascending by code point). -/
def pySorted (l : List String) : List String :=
  List.insertionSort (fun a b => strLe a b = true) l

/-- Python substring membership `needle in hay`. -/
def strContains (hay needle : String) : Bool :=
  hay.toList.tails.any (fun t => needle.toList.isPrefixOf t)

/-- Run a `try` block: the body’s printed lines, followed by the handler’s
printed lines exactly when the body raised. -/
def runTry (body : List String × Option String) (handler : String → List String) :
    List String :=
  body.1 ++ (match body.2 with | some e => handler e | none => [])

/-- Body of Step A’s `try`: `import torch`, print the version line, print the
CUDA line.  A raise after the first print keeps that line. -/
def stepABody (env : Env) : List String × Option String :=
  match env.torchImport with
  | .error e => ([], some e)
  | .ok _ =>
    match env.torchVersion with
    | .error e => ([], some e)
    | .ok v =>
      match env.cudaAvailable with
      | .error e => (["✓ PyTorch: " ++ v], some e)
      | .ok b => (["✓ PyTorch: " ++ v, "✓ CUDA available: " ++ pyBool b], none)

/-- Step A with its `except` handler. -/
def stepAOut (env : Env) : List String :=
  runTry (stepABody env) (fun e => ["✗ PyTorch import failed: " ++ e])

/-- Body of Step B’s `try`: `import diffusers`, print the version line. -/
def stepBBody (env : Env) : List String × Option String :=
  match env.diffusersImport with
  | .error e => ([], some e)
  | .ok _ =>
    match env.diffusersVersion with
    | .error e => ([], some e)
    | .ok v => (["✓ Diffusers: " ++ v], none)

/-- Step B with its `except` handler. -/
def stepBOut (env : Env) : List String :=
  runTry (stepBBody env) (fun e => ["✗ Diffusers import failed: " ++ e])

/-- The fixed literal list `imports_to_test` of five symbol paths. -/
def imports_to_test : List String :=
  ["diffusers.DiffusionPipeline",
   "diffusers.StableDiffusionXLImg2ImgPipeline",
   "diffusers.StableVideoDiffusionPipeline",
   "diffusers.utils.load_image",
   "diffusers.utils.export_to_video"]

/-- Body of one Step C iteration’s `try`: rsplit the path, unpack the pair
(a `ValueError` if the split did not give two parts), import the module,
fetch the attribute, print the success line. -/
def symbolBody (env : Env) (p : String) : List String × Option String :=
  match rsplitDot p with
  | [mp, cn] =>
    match env.moduleImport mp cn with
    | .error e => ([], some e)
    | .ok _ =>
      match env.getattrOf mp cn with
      | .error e => ([], some e)
      | .ok _ => (["✓ " ++ p], none)
  | _ => ([], some "not enough values to unpack (expected 2, got 1)")

/-- One Step C iteration with its `except` handler. -/
def symbolOut (env : Env) (p : String) : List String :=
  runTry (symbolBody env p) (fun e => ["✗ " ++ p ++ ": " ++ e])

/-- Step C: the five iterations of the `for import_path in imports_to_test`
loop, in order. -/
def stepCOut (env : Env) : List String :=
  (imports_to_test.map (symbolOut env)).flatten

/-- The resolution attempted by one Step C iteration, as a single outcome. -/
def resolveSymbol (env : Env) (p : String) : Except String Unit :=
  match rsplitDot p with
  | [mp, cn] =>
    match env.moduleImport mp cn with
    | .error e => .error e
    | .ok _ => env.getattrOf mp cn
  | _ => .error "not enough values to unpack (expected 2, got 1)"

/-- The single line one Step C iteration prints, as a function of its
resolution outcome. -/
def symbolLine (env : Env) (p : String) : String :=
  match resolveSymbol env p with
  | .ok _ => "✓ " ++ p
  | .error e => "✗ " ++ p ++ ": " ++ e

/-- The list comprehension `available`: the `dir(diffusers)` names containing
the substring "Video" or the substring "Pipeline". -/
def available (env : Env) : List String :=
  env.dirDiffusers.filter (fun attr => strContains attr "Video" || strContains attr "Pipeline")

/-- `sorted(available)`, the list Step D prints on success. -/
def sortedAvailable (env : Env) : List String := pySorted (available env)

/-- Body of Step D’s `try`: re-import diffusers, print the header, print the
sorted filtered names one per line. -/
def stepDBody (env : Env) : List String × Option String :=
  match env.diffusersImport with
  | .error e => ([], some e)
  | .ok _ =>
    ("\nAvailable in diffusers module:" ::
      (sortedAvailable env).map (fun attr => "  - " ++ attr), none)

/-- Step D with its `except` handler. -/
def stepDOut (env : Env) : List String :=
  runTry (stepDBody env) (fun e => ["Error checking diffusers contents: " ++ e])

/-- All lines printed by the four probe steps, in program order. -/
def probeOut (env : Env) : List String :=
  stepAOut env ++ stepBOut env ++ stepCOut env ++ stepDOut env

/-- Everything the script prints: the banner, then the probe steps. -/
def pyOutput (env : Env) : List String := banner :: probeOut env

/-- Whole-script semantics: an uncaught exception would surface as
`Except.error`; since every fallible statement sits inside a `try` handled by
`runTry`, the run always ends normally with the full output. -/
def pyRun (env : Env) : Except String (List String) := Except.ok (pyOutput env)

/-- The process exit status determined by a run’s outcome: 0 on normal
termination, 1 on an uncaught exception. -/
def exitCode (r : Except String (List String)) : Nat :=
  match r with
  | .ok _ => 0
  | .error _ => 1

/-- The error messages of all exceptions raised (and caught) during a run:
one possible raise per `try` body, in program order. -/
def raisedErrors (env : Env) : List String :=
  (stepABody env).2.toList ++ (stepBBody env).2.toList ++
    (imports_to_test.map (fun p => (symbolBody env p).2.toList)).flatten ++
    (stepDBody env).2.toList

/-- An environment in which neither library is installed: every import raises
a `ModuleNotFoundError`. -/
def envAllFail : Env :=
  ⟨.error "No module named 'torch'", .error "no torch", .error "no torch",
   .error "No module named 'diffusers'", .error "no diffusers",
   fun _ _ => .error "No module named 'diffusers'",
   fun _ _ => .error "no attribute", []⟩

/-- An environment in which torch imports and reports a version but the CUDA
query raises, and diffusers is fully available. -/
def envCudaFail : Env :=
  ⟨.ok (), .ok "2.1.0", .error "CUDA driver initialization failed",
   .ok (), .ok "0.25.0",
   fun _ _ => .ok (), fun _ _ => .ok (),
   ["DiffusionPipeline", "StableVideoDiffusionPipeline", "__version__", "utils"]⟩

/-! ### Helper lemmas -/

theorem symbolOut_eq (env : Env) (p : String) : symbolOut env p = [symbolLine env p] := by
  unfold symbolOut symbolLine resolveSymbol symbolBody runTry
  cases hr : rsplitDot p with
  | nil => simp
  | cons a t =>
    cases t with
    | nil => simp
    | cons b t2 =>
      cases t2 with
      | nil =>
        cases hmi : env.moduleImport a b with
        | error e => simp [hmi]
        | ok u =>
          cases hga : env.getattrOf a b with
          | error e => simp [hmi, hga]
          | ok u2 => simp [hmi, hga]
      | cons c t3 => simp

theorem flatten_map_singleton (f : String → String) (l : List String) :
    (l.map (fun a => [f a])).flatten = l.map f := by
  induction l with
  | nil => rfl
  | cons a t ih => simp [ih]

theorem mem_runTry_of_raise (body : List String × Option String)
    (handler : String → List String) (e l : String)
    (h : body.2 = some e) (hl : l ∈ handler e) : l ∈ runTry body handler := by
  unfold runTry
  rw [h]
  exact List.mem_append_right _ hl

theorem mem_pyOutput_of_A {env : Env} {l : String} (h : l ∈ stepAOut env) :
    l ∈ pyOutput env := by
  simp only [pyOutput, probeOut, List.mem_cons, List.mem_append]
  tauto

theorem mem_pyOutput_of_B {env : Env} {l : String} (h : l ∈ stepBOut env) :
    l ∈ pyOutput env := by
  simp only [pyOutput, probeOut, List.mem_cons, List.mem_append]
  tauto

theorem mem_pyOutput_of_C {env : Env} {l : String} (h : l ∈ stepCOut env) :
    l ∈ pyOutput env := by
  simp only [pyOutput, probeOut, List.mem_cons, List.mem_append]
  tauto

theorem mem_pyOutput_of_D {env : Env} {l : String} (h : l ∈ stepDOut env) :
    l ∈ pyOutput env := by
  simp only [pyOutput, probeOut, List.mem_cons, List.mem_append]
  tauto

theorem mem_stepCOut {env : Env} {p l : String} (hp : p ∈ imports_to_test)
    (h : l ∈ symbolOut env p) : l ∈ stepCOut env := by
  simp only [stepCOut, List.mem_flatten, List.mem_map]
  exact ⟨symbolOut env p, ⟨p, hp, rfl⟩, h⟩

/-! ### Claims -/

/-- Claim C1: in an environment where neither the tensor library nor the
generation library is importable, the script prints exactly nine lines — the
banner, one Step-A failure line, one Step-B failure line, five Step-C failure
lines (one per symbol path), and one Step-D failure line — and exits with
status 0. -/
theorem claim_C1 (ea eb : String) (g : String → String → String)
    (tv dv : Except String String) (cu : Except String Bool)
    (ga : String → String → Except String Unit) (dd : List String) :
    pyOutput ⟨.error ea, tv, cu, .error eb, dv,
        fun mp cn => .error (g mp cn), ga, dd⟩ =
      [banner,
       "✗ PyTorch import failed: " ++ ea,
       "✗ Diffusers import failed: " ++ eb,
       "✗ diffusers.DiffusionPipeline: " ++ g "diffusers" "DiffusionPipeline",
       "✗ diffusers.StableDiffusionXLImg2ImgPipeline: " ++
         g "diffusers" "StableDiffusionXLImg2ImgPipeline",
       "✗ diffusers.StableVideoDiffusionPipeline: " ++
         g "diffusers" "StableVideoDiffusionPipeline",
       "✗ diffusers.utils.load_image: " ++ g "diffusers.utils" "load_image",
       "✗ diffusers.utils.export_to_video: " ++ g "diffusers.utils" "export_to_video",
       "Error checking diffusers contents: " ++ eb] ∧
    (pyOutput ⟨.error ea, tv, cu, .error eb, dv,
        fun mp cn => .error (g mp cn), ga, dd⟩).length = 9 ∧
    exitCode (pyRun ⟨.error ea, tv, cu, .error eb, dv,
        fun mp cn => .error (g mp cn), ga, dd⟩) = 0 :=
  ⟨rfl, rfl, rfl⟩

/-- Claim C2: in every environment, every exception raised by a load or
attribute-resolution operation is caught, its message text is embedded in a
printed line, the run ends normally with the full output, and the exit status
is 0. -/
theorem claim_C2 (env : Env) (e : String) (he : e ∈ raisedErrors env) :
    pyRun env = Except.ok (pyOutput env) ∧ exitCode (pyRun env) = 0 ∧
    ∃ pre, pre ++ e ∈ pyOutput env := by
  refine ⟨rfl, rfl, ?_⟩
  unfold raisedErrors at he
  rw [List.mem_append, List.mem_append, List.mem_append] at he
  rcases he with ((hA | hB) | hC) | hD
  · rw [Option.mem_toList, Option.mem_def] at hA
    exact ⟨"✗ PyTorch import failed: ",
      mem_pyOutput_of_A (mem_runTry_of_raise _ _ e _ hA (List.mem_singleton.mpr rfl))⟩
  · rw [Option.mem_toList, Option.mem_def] at hB
    exact ⟨"✗ Diffusers import failed: ",
      mem_pyOutput_of_B (mem_runTry_of_raise _ _ e _ hB (List.mem_singleton.mpr rfl))⟩
  · rw [List.mem_flatten] at hC
    obtain ⟨l, hl, hel⟩ := hC
    rw [List.mem_map] at hl
    obtain ⟨p, hp, rfl⟩ := hl
    rw [Option.mem_toList, Option.mem_def] at hel
    exact ⟨"✗ " ++ p ++ ": ",
      mem_pyOutput_of_C (mem_stepCOut hp
        (mem_runTry_of_raise _ _ e _ hel (List.mem_singleton.mpr rfl)))⟩
  · rw [Option.mem_toList, Option.mem_def] at hD
    exact ⟨"Error checking diffusers contents: ",
      mem_pyOutput_of_D (mem_runTry_of_raise _ _ e _ hD (List.mem_singleton.mpr rfl))⟩

/-- Witness for claim C2 at the concrete no-libraries environment. -/
theorem claim_C2_witness :
    pyRun envAllFail = Except.ok (pyOutput envAllFail) ∧
    exitCode (pyRun envAllFail) = 0 ∧
    ∃ pre, pre ++ "No module named 'torch'" ∈ pyOutput envAllFail :=
  claim_C2 envAllFail "No module named 'torch'" (by decide)

/-- Claim C3: whenever Step D's re-load of the generation library succeeds,
the printed list of attribute names is sorted lexicographically and — the
attribute listing of a module having pairwise distinct names — contains no
duplicates. -/
theorem claim_C3 (env : Env) (u : Unit) (hok : env.diffusersImport = Except.ok u)
    (hnd : env.dirDiffusers.Nodup) :
    stepDOut env = "\nAvailable in diffusers module:" ::
      (sortedAvailable env).map (fun attr => "  - " ++ attr) ∧
    List.Sorted (fun a b => strLe a b = true) (sortedAvailable env) ∧
    (sortedAvailable env).Nodup := by
  refine ⟨?_, List.sorted_insertionSort _ _, ?_⟩
  · simp [stepDOut, stepDBody, hok, runTry]
  · exact ((List.perm_insertionSort _ _).symm).nodup (hnd.filter _)

/-- Witness for claim C3 at a concrete environment with diffusers available. -/
theorem claim_C3_witness :
    stepDOut envCudaFail = "\nAvailable in diffusers module:" ::
      (sortedAvailable envCudaFail).map (fun attr => "  - " ++ attr) ∧
    List.Sorted (fun a b => strLe a b = true) (sortedAvailable envCudaFail) ∧
    (sortedAvailable envCudaFail).Nodup :=
  claim_C3 envCudaFail () rfl (by decide)

/-- Claim C4: whenever Step D's re-load succeeds, the printed names are
exactly the `dir` names containing the substring "Video" or the substring
"Pipeline" — every name satisfying the predicate is retained and no other. -/
theorem claim_C4 (env : Env) (u : Unit) (hok : env.diffusersImport = Except.ok u) :
    stepDOut env = "\nAvailable in diffusers module:" ::
      (sortedAvailable env).map (fun attr => "  - " ++ attr) ∧
    ∀ a, a ∈ sortedAvailable env ↔
      a ∈ env.dirDiffusers ∧
        (strContains a "Video" = true ∨ strContains a "Pipeline" = true) := by
  constructor
  · simp [stepDOut, stepDBody, hok, runTry]
  · intro a
    rw [sortedAvailable, pySorted, (List.perm_insertionSort _ _).mem_iff,
      available, List.mem_filter]
    simp [Bool.or_eq_true]

/-- Witness for claim C4 at a concrete environment with diffusers available. -/
theorem claim_C4_witness :
    stepDOut envCudaFail = "\nAvailable in diffusers module:" ::
      (sortedAvailable envCudaFail).map (fun attr => "  - " ++ attr) ∧
    ∀ a, a ∈ sortedAvailable envCudaFail ↔
      a ∈ envCudaFail.dirDiffusers ∧
        (strContains a "Video" = true ∨ strContains a "Pipeline" = true) :=
  claim_C4 envCudaFail () rfl

/-- Claim C5: each of the five literal symbol paths contains a dot, and
rsplitting it at the last dot yields exactly two non-empty parts. -/
theorem claim_C5 :
    imports_to_test.all (fun p =>
      p.toList.contains '.' &&
      match rsplitDot p with
      | [mp, cn] => !mp.isEmpty && !cn.isEmpty
      | _ => false) = true := by decide

/-- Claim C6: Step C attempts every one of the five symbol paths, printing
one line per path — the path on success, the path with the failure reason on
failure — and each attempt's outcome depends only on the import and
attribute-fetch outcomes for that path, so a failure of one symbol does not
prevent or alter any other attempt. -/
theorem claim_C6 (env env₁ env₂ : Env) (p : String)
    (hagree : ∀ mp cn, rsplitDot p = [mp, cn] →
      env₁.moduleImport mp cn = env₂.moduleImport mp cn ∧
      env₁.getattrOf mp cn = env₂.getattrOf mp cn) :
    stepCOut env = imports_to_test.map (symbolLine env) ∧
    symbolOut env₁ p = symbolOut env₂ p := by
  constructor
  · unfold stepCOut
    rw [funext (symbolOut_eq env)]
    exact flatten_map_singleton _ _
  · rw [symbolOut_eq, symbolOut_eq]
    cases hr : rsplitDot p with
    | nil => simp [symbolLine, resolveSymbol, hr]
    | cons a t =>
      cases t with
      | nil => simp [symbolLine, resolveSymbol, hr]
      | cons b t2 =>
        cases t2 with
        | nil =>
          obtain ⟨h1, h2⟩ := hagree a b hr
          simp [symbolLine, resolveSymbol, hr, h1, h2]
        | cons c t3 => simp [symbolLine, resolveSymbol, hr]

/-- Witness for claim C6 at concrete environments agreeing on the first
symbol path. -/
theorem claim_C6_witness :
    stepCOut envAllFail = imports_to_test.map (symbolLine envAllFail) ∧
    symbolOut envCudaFail "diffusers.DiffusionPipeline" =
      symbolOut envCudaFail "diffusers.DiffusionPipeline" :=
  claim_C6 envAllFail envCudaFail envCudaFail "diffusers.DiffusionPipeline"
    (fun _ _ _ => ⟨rfl, rfl⟩)

/-- Claim C7: the script is deterministic — its printed output is a function
of the environment's operation outcomes alone, so two runs over environments
with identical outcomes produce identical standard-output text. -/
theorem claim_C7 (env₁ env₂ : Env)
    (hti : env₁.torchImport = env₂.torchImport)
    (htv : env₁.torchVersion = env₂.torchVersion)
    (hcu : env₁.cudaAvailable = env₂.cudaAvailable)
    (hdi : env₁.diffusersImport = env₂.diffusersImport)
    (hdv : env₁.diffusersVersion = env₂.diffusersVersion)
    (hmi : ∀ mp cn, env₁.moduleImport mp cn = env₂.moduleImport mp cn)
    (hga : ∀ mp cn, env₁.getattrOf mp cn = env₂.getattrOf mp cn)
    (hdd : env₁.dirDiffusers = env₂.dirDiffusers) :
    pyOutput env₁ = pyOutput env₂ := by
  have hmi2 : env₁.moduleImport = env₂.moduleImport :=
    funext fun mp => funext fun cn => hmi mp cn
  have hga2 : env₁.getattrOf = env₂.getattrOf :=
    funext fun mp => funext fun cn => hga mp cn
  cases env₁
  cases env₂
  simp only at hti htv hcu hdi hdv hmi2 hga2 hdd
  subst hti htv hcu hdi hdv hmi2 hga2 hdd
  rfl

/-- Witness for claim C7 at a concrete environment. -/
theorem claim_C7_witness : pyOutput envAllFail = pyOutput envAllFail :=
  claim_C7 envAllFail envAllFail rfl rfl rfl rfl rfl
    (fun _ _ => rfl) (fun _ _ => rfl) rfl

/-- Claim C8: if the tensor library import raises, Step A prints exactly one
failure line and no success lines, and the run continues with Steps B, C
and D. -/
theorem claim_C8 (env : Env) (e : String) (h : env.torchImport = Except.error e) :
    stepAOut env = ["✗ PyTorch import failed: " ++ e] ∧
    pyOutput env = banner :: ("✗ PyTorch import failed: " ++ e) ::
      (stepBOut env ++ stepCOut env ++ stepDOut env) := by
  have hA : stepAOut env = ["✗ PyTorch import failed: " ++ e] := by
    simp [stepAOut, stepABody, h, runTry]
  refine ⟨hA, ?_⟩
  simp [pyOutput, probeOut, hA]

/-- Witness for claim C8 at the concrete no-libraries environment. -/
theorem claim_C8_witness :
    stepAOut envAllFail = ["✗ PyTorch import failed: " ++ "No module named 'torch'"] ∧
    pyOutput envAllFail = banner ::
      ("✗ PyTorch import failed: " ++ "No module named 'torch'") ::
      (stepBOut envAllFail ++ stepCOut envAllFail ++ stepDOut envAllFail) :=
  claim_C8 envAllFail "No module named 'torch'" rfl

/-- Claim C9: in every environment the first printed line is the literal
banner, emitted before any probe, so the output always has exactly one line
more than the probe steps print. -/
theorem claim_C9 (env : Env) :
    (pyOutput env).head? = some "=== DEBUGGING DIFFUSERS IMPORT ===" ∧
    (pyOutput env).length = (probeOut env).length + 1 :=
  ⟨rfl, rfl⟩

/-- Claim C10: if the tensor import and the version read succeed but the CUDA
availability query raises, Step A prints the version success line and then a
failure line — a single step can emit both success and failure output. -/
theorem claim_C10 (env : Env) (v e : String)
    (h1 : env.torchImport = Except.ok ())
    (h2 : env.torchVersion = Except.ok v)
    (h3 : env.cudaAvailable = Except.error e) :
    stepAOut env = ["✓ PyTorch: " ++ v, "✗ PyTorch import failed: " ++ e] := by
  simp [stepAOut, stepABody, h1, h2, h3, runTry]

/-- Witness for claim C10 at a concrete environment where only the CUDA query
raises. -/
theorem claim_C10_witness :
    stepAOut envCudaFail = ["✓ PyTorch: " ++ "2.1.0",
      "✗ PyTorch import failed: " ++ "CUDA driver initialization failed"] :=
  claim_C10 envCudaFail "2.1.0" "CUDA driver initialization failed" rfl rfl rfl
